import Mathlib

/- Verification development for the Lexorbit legal-analytics backend core.
   The Python sources (api/ai_services.py, api/views.py, court_data/models.py,
   data_ingestion/data_processors.py) are shallowly embedded below: Django
   querysets become Lean lists, SQL/ORM filters become executable predicates,
   Python floats on the analytics paths become exact rationals (every numeric
   literal involved — 0.5, 2, 100, 70.0, 78.0, … — is exactly representable,
   so the rational model agrees with the float code on all claim-relevant
   values), and the OpenAI client becomes an explicit oracle argument. -/

set_option maxHeartbeats 1000000

/-- Case-sensitive check that `p` occurs at the head of the haystack
    (`str.startswith` on char lists). -/
def charsLead : List Char → List Char → Bool
  | [], _ => true
  | _ :: _, [] => false
  | p :: ps, h :: hs => p == h && charsLead ps hs

/-- Case-sensitive substring occurrence on char lists (Python `in`). -/
def charsSub (pat : List Char) : List Char → Bool
  | [] => pat.isEmpty
  | h :: t => charsLead pat (h :: t) || charsSub pat t

/-- Python `pat in hay` (case-sensitive substring test). -/
def strContains (hay pat : String) : Bool :=
  charsSub pat.data hay.data

/-- Python `str.lower()`, character by character. -/
def toLowerStr (s : String) : String :=
  ⟨s.data.map Char.toLower⟩

/-- Django `__icontains` / SQL `ILIKE %pat%`: case-insensitive substring test. -/
def icontains (hay pat : String) : Bool :=
  strContains (toLowerStr hay) (toLowerStr pat)

/-- Floor of a rational, computed by floored integer division
    (the denominator of a `Rat` is positive). -/
def ratFloor (q : ℚ) : ℤ := q.num.fdiv q.den

/-- Python `round` to the nearest integer, halves to even (banker's rounding). -/
def pyRound (q : ℚ) : ℤ :=
  let f := ratFloor q
  let r := q - (f : ℚ)
  if r < 1/2 then f
  else if (1 : ℚ)/2 < r then f + 1
  else if f % 2 = 0 then f else f + 1

/-- Python `round(x, 1)`: round to one decimal place. -/
def round1 (q : ℚ) : ℚ := (pyRound (q * 10) : ℚ) / 10

/-- Python `int()` truncation toward zero on rationals. -/
def pyInt (q : ℚ) : ℤ :=
  if q < 0 then -(ratFloor (-q)) else ratFloor q

theorem ratFloor_intCast (n : ℤ) : ratFloor (n : ℚ) = n := by
  simp [ratFloor, Rat.num_intCast, Rat.den_intCast, Int.fdiv_one]

theorem pyRound_intCast (n : ℤ) : pyRound (n : ℚ) = n := by
  simp [pyRound, ratFloor_intCast]

/-- `round(x, 1)` is the identity on rationals whose tenfold is an integer
    (in particular on all multiples of 0.5). -/
theorem round1_eq_self (q : ℚ) (n : ℤ) (h : q * 10 = (n : ℚ)) : round1 q = q := by
  have h10 : (10 : ℚ) ≠ 0 := by norm_num
  rw [round1, h, pyRound_intCast, ← h]
  field_simp

/- ----------------------------------------------------------------------
   CitationGraphAnalyzer: `citation_network` (api/views.py lines 1860-1912)
   ---------------------------------------------------------------------- -/

/-- One row of `opinion.cites_to` / `opinion.cited_by` as iterated by
    `citation_network`: the neighbor opinion id, its case name, and whether
    the neighbor's cluster/docket linkage is present (rows lacking the
    linkage are skipped from the output list). -/
structure CitEntry where
  neighbor_id : ℤ
  case_name : String
  hasLinkage : Bool
deriving DecidableEq, Repr

/-- The neighbor list built by `citation_network`: the relation queryset is
    truncated to `limit` first (`.all()[:DEFAULT_CITATION_LIMIT]`), then each
    surviving row is appended only when its cluster/docket linkage exists. -/
def buildNeighbors (entries : List CitEntry) (limit : Nat) : List CitEntry :=
  (entries.take limit).filter (fun e => e.hasLinkage)

/-- api/views.py line 1895:
    `influence_score = min(100, (len(cited_by) * 2) + (len(cites_to) * 0.5))`. -/
def influence_score (citedByCount citesToCount : Nat) : ℚ :=
  min 100 ((citedByCount : ℚ) * 2 + (citesToCount : ℚ) * (1/2))

/-- The `statistics` block of the `citation_network` response
    (counts of the returned lists and `round(influence_score, 1)`). -/
structure CitationStats where
  cites_to_count : Nat
  cited_by_count : Nat
  influenceReported : ℚ
deriving DecidableEq, Repr

/-- `citation_network` statistics: build both truncated neighbor lists,
    then report their lengths and the rounded influence score. -/
def citation_network_stats (citesToRel citedByRel : List CitEntry) (limit : Nat) :
    CitationStats :=
  let cites_to := buildNeighbors citesToRel limit
  let cited_by := buildNeighbors citedByRel limit
  { cites_to_count := cites_to.length
    cited_by_count := cited_by.length
    influenceReported := round1 (influence_score cited_by.length cites_to.length) }

theorem influence_score_mul_ten_int (cb ct : Nat) :
    influence_score cb ct * 10 = ((min 1000 (20 * cb + 5 * ct) : ℕ) : ℚ) := by
  rw [influence_score]
  rcases le_total ((cb : ℚ) * 2 + (ct : ℚ) * (1/2)) 100 with h | h
  · rw [min_eq_right h]
    have hn : 20 * cb + 5 * ct ≤ 1000 := by
      have := mul_le_mul_of_nonneg_right h (by norm_num : (0 : ℚ) ≤ 10)
      have h2 : ((20 * cb + 5 * ct : ℕ) : ℚ) ≤ ((1000 : ℕ) : ℚ) := by
        push_cast
        push_cast at this
        ring_nf
        ring_nf at this
        linarith
      exact_mod_cast h2
    rw [Nat.min_eq_right hn]
    push_cast
    ring
  · rw [min_eq_left h]
    have hn : 1000 ≤ 20 * cb + 5 * ct := by
      have := mul_le_mul_of_nonneg_right h (by norm_num : (0 : ℚ) ≤ 10)
      have h2 : ((1000 : ℕ) : ℚ) ≤ ((20 * cb + 5 * ct : ℕ) : ℚ) := by
        push_cast
        push_cast at this
        ring_nf
        ring_nf at this
        linarith
      exact_mod_cast h2
    rw [Nat.min_eq_left hn]
    norm_num

theorem influence_reported_exact (cb ct : Nat) :
    round1 (influence_score cb ct) = influence_score cb ct := by
  refine round1_eq_self _ ((min 1000 (20 * cb + 5 * ct) : ℕ) : ℤ) ?_
  rw [influence_score_mul_ten_int]
  push_cast
  ring

/-- C1: for all relation lists and any truncation limit, the influence score
    reported by `citation_network` equals
    `min(100, cited_by_count * 2 + cites_to_count * 0.5)` where the counts are
    the lengths of the (limit-truncated) neighbor lists it returns; the score
    lies in [0, 100]; and an opinion with 5 cited_by and 3 cites_to yields 11.5. -/
theorem C1_influence_score_formula (citesToRel citedByRel : List CitEntry) (limit : Nat) :
    (citation_network_stats citesToRel citedByRel limit).influenceReported =
      min 100 (((citation_network_stats citesToRel citedByRel limit).cited_by_count : ℚ) * 2 +
        ((citation_network_stats citesToRel citedByRel limit).cites_to_count : ℚ) * (1/2))
    ∧ 0 ≤ (citation_network_stats citesToRel citedByRel limit).influenceReported
    ∧ (citation_network_stats citesToRel citedByRel limit).influenceReported ≤ 100
    ∧ influence_score 5 3 = 11.5 := by
  refine ⟨?_, ?_, ?_, ?_⟩
  · simp only [citation_network_stats]
    rw [influence_reported_exact]
    rfl
  · simp only [citation_network_stats]
    rw [influence_reported_exact, influence_score]
    exact le_min (by norm_num) (by positivity)
  · simp only [citation_network_stats]
    rw [influence_reported_exact, influence_score]
    exact min_le_left _ _
  · rw [influence_score]
    norm_num

/- ----------------------------------------------------------------------
   EmbeddingProvider: EmbeddingService.generate_embedding
   (api/ai_services.py lines 14-36)
   ---------------------------------------------------------------------- -/

/-- The placeholder credential rejected at client construction. -/
def placeholderKey : String := "your-openai-api-key-here"

/-- `EmbeddingService.generate_embedding`.  The client is constructed in
    `__init__` only when `settings.OPENAI_API_KEY` is truthy (non-empty) and
    differs from the placeholder; with no client the method logs and returns
    None.  Otherwise it calls the remote embeddings endpoint on the first
    8000 characters of the text (`text[:8000]`) and returns the vector, or
    catches any exception, logs it, and returns None.  The remote call is an
    explicit oracle `remote : String → Except String (List ℚ)`; a malformed
    response (e.g. empty `data`) is one of its `.error` outcomes. -/
def generate_embedding (apiKey : String) (remote : String → Except String (List ℚ))
    (text : String) : Option (List ℚ) :=
  if apiKey = "" ∨ apiKey = placeholderKey then none
  else
    match remote (text.take 8000) with
    | .ok v => some v
    | .error _ => none

/-- C8: the embed operation returns Unavailable (None) exactly when no
    credential is configured, the credential is the placeholder, or the remote
    call fails for any reason; otherwise it returns the remote embedding of
    the input truncated to its first 8000 characters. -/
theorem C8_generate_embedding_unavailable (apiKey : String)
    (remote : String → Except String (List ℚ)) (text : String) :
    (generate_embedding apiKey remote text = none ↔
      apiKey = "" ∨ apiKey = placeholderKey ∨
        ∃ e, remote (text.take 8000) = .error e)
    ∧ ∀ v, (generate_embedding apiKey remote text = some v ↔
      apiKey ≠ "" ∧ apiKey ≠ placeholderKey ∧ remote (text.take 8000) = .ok v) := by
  by_cases hk : apiKey = "" ∨ apiKey = placeholderKey
  · rw [generate_embedding, if_pos hk]
    constructor
    · simp only [eq_self_iff_true, true_iff]
      tauto
    · intro v
      simp only [reduceCtorEq, false_iff, not_and]
      tauto
  · have hk1 : apiKey ≠ "" := fun h => hk (Or.inl h)
    have hk2 : apiKey ≠ placeholderKey := fun h => hk (Or.inr h)
    rw [generate_embedding, if_neg hk]
    rcases hr : remote (text.take 8000) with e | v0
    · constructor
      · simp
      · intro v
        simp [hk1, hk2]
    · constructor
      · simp [hk1, hk2]
      · intro v
        simp [hk1, hk2]

/- ----------------------------------------------------------------------
   HybridSearchEngine: EmbeddingService.semantic_search_opinions,
   _vector_search_opinions, _keyword_search_opinions,
   _format_opinion_results, comprehensive_search
   (api/ai_services.py lines 38-156) and the semantic_search view
   (api/views.py lines 1321-1355)
   ---------------------------------------------------------------------- -/

/-- A row of the `courts` table as joined by the search paths.
    `court_id` is the CourtListener string id column (`c.court_id`). -/
structure CourtRec where
  court_id : String
  name : String
  jurisdiction : String
  level : String
deriving DecidableEq, Repr

/-- The docket reachable from an opinion via its cluster
    (`op.cluster.docket`), with its court. -/
structure DocketRef where
  case_name : String
  case_name_short : String
  court : Option CourtRec
deriving DecidableEq, Repr

/-- One row of the `opinions` table carrying everything the search paths
    touch.  `docket` collapses the `op.cluster` / `op.cluster.docket` chain
    (None when either link is missing); `date_filed` is a day ordinal. -/
structure OpinionRec where
  id : ℤ
  opinion_id : ℤ
  plain_text : String
  docket : Option DocketRef
  author_name : Option String
  date_filed : Option ℤ
  embedding : Option (List ℚ)
deriving DecidableEq, Repr

/-- The optional metadata filter dictionary accepted by the search paths
    (each key absent when `filters.get(...)` would return None). -/
structure SearchFilters where
  jurisdiction : Option String
  court_level : Option String
  date_from : Option ℤ
  date_to : Option ℤ
  judge_name : Option String
deriving DecidableEq, Repr

/-- The WHERE clause of `_vector_search_opinions` evaluated on one opinion
    row: the inner joins require the cluster→docket→court chain, the row must
    have an embedding (`ops.embedding IS NOT NULL`), and each present filter
    key appends one conjunct.  SQL comparisons involving a NULL `date_filed`
    or a NULL left-joined author name satisfy no clause. -/
def vectorWhere (f : Option SearchFilters) (op : OpinionRec) : Bool :=
  op.embedding.isSome &&
  (match op.docket with
   | none => false
   | some d =>
     match d.court with
     | none => false
     | some c =>
       match f with
       | none => true
       | some fl =>
         (match fl.jurisdiction with
          | some "federal" => c.jurisdiction == "F"
          | some "state" => c.jurisdiction == "S"
          | _ => true) &&
         (match fl.court_level with
          | some "supreme" => c.court_id == "scotus" || icontains c.name "Supreme Court"
          | some "circuit" => c.level == "Appellate"
          | some "district" => c.level == "District"
          | _ => true) &&
         (match fl.date_from with
          | some d0 => match op.date_filed with
            | some df => decide (d0 ≤ df)
            | none => false
          | none => true) &&
         (match fl.date_to with
          | some d1 => match op.date_filed with
            | some df => decide (df ≤ d1)
            | none => false
          | none => true) &&
         (match fl.judge_name with
          | some pat => match op.author_name with
            | some nm => icontains nm pat
            | none => false
          | none => true))

/-- Ordering of the scored rows `(ops.id, distance)` used by
    `ORDER BY distance`. -/
def distLE (a b : ℤ × ℚ) : Prop := a.2 ≤ b.2

instance : DecidableRel distLE := fun a b => inferInstanceAs (Decidable (a.2 ≤ b.2))

instance : IsTotal (ℤ × ℚ) distLE := ⟨fun a b => le_total a.2 b.2⟩

instance : IsTrans (ℤ × ℚ) distLE := ⟨fun _ _ _ => le_trans⟩

/-- The ranked-id query of `_vector_search_opinions`:
    `SELECT ops.id, ops.embedding <=> %s AS distance ... WHERE ...
     ORDER BY distance LIMIT max_results`, as scored rows `(id, distance)`.
    `dist` is the pgvector cosine-distance operator applied to the stored
    embedding and the query vector. -/
def distanceRows (store : List OpinionRec) (f : Option SearchFilters)
    (maxResults : Nat) (dist : OpinionRec → ℚ) : List (ℤ × ℚ) :=
  (List.insertionSort distLE
    ((store.filter (vectorWhere f)).map (fun op => (op.id, dist op)))).take maxResults

/-- `Opinion.objects.filter(id__in=opinion_ids)` followed by
    `opinion_dict = {op.id: op ...}` and
    `[opinion_dict[id] for id in opinion_ids if id in opinion_dict]`:
    each ranked id is looked back up in the store, keeping the ranked order.
    (With duplicate store ids the Python dict would keep the last row and
    this model the first; all theorems below assume ids are unique.) -/
def refetchByIds (store : List OpinionRec) (ids : List ℤ) : List OpinionRec :=
  ids.filterMap (fun i => store.find? (fun op => op.id == i))

/-- `_vector_search_opinions`: rank ids by distance, then re-fetch the full
    records in the distance-ranked id order. -/
def vector_search_opinions (store : List OpinionRec) (queryEmb : List ℚ)
    (f : Option SearchFilters) (maxResults : Nat)
    (cosDist : List ℚ → List ℚ → ℚ) : List OpinionRec :=
  let ranked := distanceRows store f maxResults
    (fun op => cosDist (op.embedding.getD []) queryEmb)
  refetchByIds store (ranked.map (fun r => r.1))

/-- `_keyword_search_opinions`: when the query is non-empty keep rows whose
    plain text or docket case name contains it case-insensitively (rows with
    no cluster/docket fail the case-name branch), then apply the jurisdiction
    filter, then truncate (`qs[:max_results]`). -/
def keyword_search_opinions (store : List OpinionRec) (query : String)
    (f : Option SearchFilters) (maxResults : Nat) : List OpinionRec :=
  let qs := if query == "" then store else
    store.filter (fun op => icontains op.plain_text query ||
      (match op.docket with
       | some d => icontains d.case_name query
       | none => false))
  let qs := match f with
    | none => qs
    | some fl =>
      match fl.jurisdiction with
      | some "federal" => qs.filter (fun op => match op.docket with
          | some d => match d.court with
            | some c => c.jurisdiction == "F"
            | none => false
          | none => false)
      | some "state" => qs.filter (fun op => match op.docket with
          | some d => match d.court with
            | some c => c.jurisdiction == "S"
            | none => false
          | none => false)
      | _ => qs
  qs.take maxResults

/-- The common display shape produced by `_format_opinion_results`. -/
structure ResultItem where
  rtype : String
  id : ℤ
  db_id : ℤ
  title : String
  citation : String
  author : String
  date : Option ℤ
  court : String
  excerpt : String
deriving DecidableEq, Repr

/-- `_format_opinion_results` on one opinion row. -/
def formatOpinion (op : OpinionRec) : ResultItem :=
  { rtype := "opinion"
    id := op.opinion_id
    db_id := op.id
    title := match op.docket with
      | some d => d.case_name_short
      | none => "Unknown"
    citation := "Opinion ID: " ++ toString op.opinion_id
    author := op.author_name.getD "Unknown"
    date := op.date_filed
    court := match op.docket with
      | some d => match d.court with
        | some c => c.name
        | none => "Unknown"
      | none => "Unknown"
    excerpt := if op.plain_text == "" then "" else op.plain_text.take 500 ++ "..." }

/-- `semantic_search_opinions`: embed the query (the embedding outcome is the
    explicit `queryEmbedding` argument), use the vector path when a vector is
    available and the keyword fallback otherwise, then format either list. -/
def semantic_search_opinions (store : List OpinionRec)
    (queryEmbedding : Option (List ℚ)) (query : String)
    (f : Option SearchFilters) (maxResults : Nat)
    (cosDist : List ℚ → List ℚ → ℚ) : List ResultItem :=
  match queryEmbedding with
  | some v => (vector_search_opinions store v f maxResults cosDist).map formatOpinion
  | none => (keyword_search_opinions store query f maxResults).map formatOpinion

/-- Modelled from the spec's words, for the C3 comparison only: the
    lexical-fallback (keyword/substring) path run directly with the same
    query and the same filters, including the shared result formatting. -/
def lexicalFallbackDirect (store : List OpinionRec) (query : String)
    (f : Option SearchFilters) (maxResults : Nat) : List ResultItem :=
  (keyword_search_opinions store query f maxResults).map formatOpinion

/-- The dictionary produced by `comprehensive_search`. -/
structure ComprehensiveResult where
  query : String
  opinions : List ResultItem
  cases : List ResultItem
  judges : List ResultItem
deriving DecidableEq, Repr

/-- `comprehensive_search` (api/ai_services.py lines 149-156): search the
    opinions with half the requested cap (`max_results // 2`); the `cases`
    and `judges` entries are literal empty lists. -/
def comprehensive_search (store : List OpinionRec)
    (queryEmbedding : Option (List ℚ)) (query : String)
    (f : Option SearchFilters) (maxResults : Nat)
    (cosDist : List ℚ → List ℚ → ℚ) : ComprehensiveResult :=
  { query := query
    opinions := semantic_search_opinions store queryEmbedding query f
      (maxResults / 2) cosDist
    cases := []
    judges := [] }

/-- The response assembled by the `semantic_search` view: flattened
    combination of the three categories plus the per-category breakdown. -/
structure SearchViewResponse where
  query : String
  total_results : Nat
  results : List ResultItem
  opinions_count : Nat
  cases_count : Nat
  judges_count : Nat
deriving DecidableEq, Repr

/-- api/views.py lines 1340-1355: extend `all_results` with the three
    category lists and report their lengths as the breakdown. -/
def semantic_search_view_combine (r : ComprehensiveResult) : SearchViewResponse :=
  { query := r.query
    total_results := (r.opinions ++ r.cases ++ r.judges).length
    results := r.opinions ++ r.cases ++ r.judges
    opinions_count := r.opinions.length
    cases_count := r.cases.length
    judges_count := r.judges.length }

/-- C3: when the embedding provider reports Unavailable (no vector for the
    query), the search operation returns exactly the result list produced by
    running the lexical-fallback (keyword/substring) path directly with the
    same query and the same filters. -/
theorem C3_unavailable_equals_lexical_fallback (store : List OpinionRec)
    (query : String) (f : Option SearchFilters) (maxResults : Nat)
    (cosDist : List ℚ → List ℚ → ℚ) :
    semantic_search_opinions store none query f maxResults cosDist =
      lexicalFallbackDirect store query f maxResults := rfl

/-- A concrete opinion used as counterexample material: its text matches the
    query "employment". -/
def demoOpinion : OpinionRec :=
  { id := 1
    opinion_id := 101
    plain_text := "An employment dispute over unpaid wages."
    docket := some { case_name := "Smith v. Acme Corp"
                     case_name_short := "Smith"
                     court := some { court_id := "ca1"
                                     name := "First Circuit"
                                     jurisdiction := "F"
                                     level := "Appellate" } }
    author_name := some "Judge Jones"
    date_filed := some 100
    embedding := none }

/-- C9 counterexample: with the concrete query "employment" against a store
    whose one opinion matches, comprehensive-mode search fills the opinions
    category (with cap `max_results // 2`), but the cases and judges
    categories are the literal empty list — no case search and no judge
    search is run at any cap, contradicting the claimed half/quarter/quarter
    three-way search. -/
theorem C9_counterexample :
    (comprehensive_search [demoOpinion] none "employment" none 40
        (fun _ _ => 0)).opinions ≠ []
    ∧ (comprehensive_search [demoOpinion] none "employment" none 40
        (fun _ _ => 0)).cases = []
    ∧ (comprehensive_search [demoOpinion] none "employment" none 40
        (fun _ _ => 0)).judges = [] := by
  refine ⟨?_, rfl, rfl⟩
  decide

/-- C9 amended: comprehensive-mode search runs the query only against
    opinions, with result cap `max_results // 2`; the cases and judges
    categories are always empty lists; the view layer returns the
    per-category breakdown together with a flattened combined list, which
    therefore equals the opinions list. -/
theorem C9_comprehensive_amended (store : List OpinionRec)
    (queryEmbedding : Option (List ℚ)) (query : String) (f : Option SearchFilters)
    (maxResults : Nat) (cosDist : List ℚ → List ℚ → ℚ) :
    (comprehensive_search store queryEmbedding query f maxResults cosDist).opinions =
      semantic_search_opinions store queryEmbedding query f (maxResults / 2) cosDist
    ∧ (comprehensive_search store queryEmbedding query f maxResults cosDist).cases = []
    ∧ (comprehensive_search store queryEmbedding query f maxResults cosDist).judges = []
    ∧ (semantic_search_view_combine
        (comprehensive_search store queryEmbedding query f maxResults cosDist)).results =
      (comprehensive_search store queryEmbedding query f maxResults cosDist).opinions
    ∧ (semantic_search_view_combine
        (comprehensive_search store queryEmbedding query f maxResults cosDist)).total_results =
      (comprehensive_search store queryEmbedding query f maxResults cosDist).opinions.length := by
  refine ⟨rfl, rfl, rfl, ?_, ?_⟩ <;>
    simp [semantic_search_view_combine, comprehensive_search]

theorem vectorWhere_isSome {f : Option SearchFilters} {op : OpinionRec}
    (h : vectorWhere f op = true) : op.embedding.isSome = true := by
  simp only [vectorWhere, Bool.and_eq_true] at h
  exact h.1

/-- Every id ranked by the distance query belongs to a store row that has an
    embedding and satisfies the conjunction of the filter predicates. -/
theorem distanceRows_fst_mem (store : List OpinionRec) (f : Option SearchFilters)
    (maxResults : Nat) (dist : OpinionRec → ℚ) :
    ∀ i ∈ (distanceRows store f maxResults dist).map (fun r => r.1),
      ∃ op ∈ store, op.id = i ∧ vectorWhere f op = true := by
  intro i hi
  rw [List.mem_map] at hi
  obtain ⟨r, hr, hri⟩ := hi
  have hr1 : r ∈ List.insertionSort distLE
      ((store.filter (vectorWhere f)).map (fun op => (op.id, dist op))) :=
    List.take_subset _ _ hr
  have hr2 : r ∈ (store.filter (vectorWhere f)).map (fun op => (op.id, dist op)) :=
    (List.perm_insertionSort distLE _).mem_iff.mp hr1
  rw [List.mem_map] at hr2
  obtain ⟨op, hop, hopr⟩ := hr2
  rw [List.mem_filter] at hop
  refine ⟨op, hop.1, ?_, hop.2⟩
  rw [← hri, ← hopr]

/-- Re-fetching by id reproduces exactly the requested id sequence whenever
    every requested id is present in the store. -/
theorem refetch_map_id (store : List OpinionRec) (ids : List ℤ)
    (h : ∀ i ∈ ids, ∃ op ∈ store, op.id = i) :
    (refetchByIds store ids).map (fun op => op.id) = ids := by
  induction ids with
  | nil => rfl
  | cons i t ih =>
    obtain ⟨op, hop, hid⟩ := h i (List.mem_cons_self i t)
    have hsome : (store.find? (fun o => o.id == i)).isSome := by
      rw [List.find?_isSome]
      exact ⟨op, hop, by simp [hid]⟩
    obtain ⟨op', hop'⟩ := Option.isSome_iff_exists.mp hsome
    have hid' : op'.id = i := by
      have := List.find?_some hop'
      simpa using this
    have ht := ih (fun j hj => h j (List.mem_cons_of_mem _ hj))
    simp only [refetchByIds, List.filterMap_cons, hop'] at ht ⊢
    rw [List.map_cons, hid', ht]

/-- Every record returned by the re-fetch step is a store row whose id was
    requested. -/
theorem refetch_mem (store : List OpinionRec) (ids : List ℤ) :
    ∀ op ∈ refetchByIds store ids, op ∈ store ∧ op.id ∈ ids := by
  intro op hop
  rw [refetchByIds, List.mem_filterMap] at hop
  obtain ⟨i, hi, hfind⟩ := hop
  have hmem := List.mem_of_find?_eq_some hfind
  have hpred := List.find?_some hfind
  simp only [beq_iff_eq] at hpred
  exact ⟨hmem, hpred ▸ hi⟩

/-- C5: for every vector-mode search over a store with distinct record ids,
    the distance-ranked rows are non-decreasing in distance and truncated to
    `max_results`; every returned record has a non-null embedding and
    satisfies the logical AND of the filter predicates; and the re-fetched
    full records follow exactly the distance-ranked id order. -/
theorem C5_vector_search_ranked (store : List OpinionRec) (queryEmb : List ℚ)
    (f : Option SearchFilters) (maxResults : Nat)
    (cosDist : List ℚ → List ℚ → ℚ)
    (hids : (store.map (fun op => op.id)).Nodup) :
    List.Pairwise (fun a b : ℤ × ℚ => a.2 ≤ b.2)
      (distanceRows store f maxResults
        (fun op => cosDist (op.embedding.getD []) queryEmb))
    ∧ (distanceRows store f maxResults
        (fun op => cosDist (op.embedding.getD []) queryEmb)).length ≤ maxResults
    ∧ (∀ op ∈ vector_search_opinions store queryEmb f maxResults cosDist,
        op.embedding.isSome = true ∧ vectorWhere f op = true)
    ∧ (vector_search_opinions store queryEmb f maxResults cosDist).map
        (fun op => op.id) =
      (distanceRows store f maxResults
        (fun op => cosDist (op.embedding.getD []) queryEmb)).map (fun r => r.1) := by
  set dist := fun op : OpinionRec => cosDist (op.embedding.getD []) queryEmb with hdist
  refine ⟨?_, ?_, ?_, ?_⟩
  · have hs : List.Sorted distLE (List.insertionSort distLE
        ((store.filter (vectorWhere f)).map (fun op => (op.id, dist op)))) :=
      List.sorted_insertionSort distLE _
    exact List.Pairwise.sublist (List.take_sublist _ _) hs
  · rw [distanceRows, List.length_take]
    exact min_le_left _ _
  · intro op hop
    obtain ⟨hopstore, hopid⟩ := refetch_mem store _ op hop
    obtain ⟨op', hop', hid', hwhere'⟩ := distanceRows_fst_mem store f maxResults dist op.id hopid
    have : op' = op := List.inj_on_of_nodup_map hids hop' hopstore hid'
    rw [this] at hwhere'
    exact ⟨vectorWhere_isSome hwhere', hwhere'⟩
  · exact refetch_map_id store _ (fun i hi => by
      obtain ⟨op, hop, hid, -⟩ := distanceRows_fst_mem store f maxResults dist i hi
      exact ⟨op, hop, hid⟩)

/-- A second concrete opinion with an embedding, for the C5 witness. -/
def demoOpinionB : OpinionRec :=
  { id := 2
    opinion_id := 202
    plain_text := "Contract breach ruling."
    docket := some { case_name := "Acme v. Zeta"
                     case_name_short := "Acme"
                     court := some { court_id := "scotus"
                                     name := "Supreme Court of the United States"
                                     jurisdiction := "F"
                                     level := "Supreme" } }
    author_name := some "Judge Smith"
    date_filed := some 200
    embedding := some [1, 0] }

/-- A third concrete opinion with an embedding, for the C5 witness. -/
def demoOpinionC : OpinionRec :=
  { id := 3
    opinion_id := 303
    plain_text := "Wage dispute appeal."
    docket := some { case_name := "Jones v. Mart"
                     case_name_short := "Jones"
                     court := some { court_id := "ca9"
                                     name := "Ninth Circuit"
                                     jurisdiction := "F"
                                     level := "Appellate" } }
    author_name := none
    date_filed := none
    embedding := some [0, 1] }

/-- Concrete two-record store with distinct ids, for the C5 witness. -/
def demoStoreV : List OpinionRec := [demoOpinionB, demoOpinionC]

/-- Concrete stand-in for the pgvector cosine-distance operator, for the C5
    witness. -/
def demoDist (a b : List ℚ) : ℚ :=
  (a.headD 0 - b.headD 0) * (a.headD 0 - b.headD 0)

theorem C5_vector_search_ranked_witness :
    List.Pairwise (fun a b : ℤ × ℚ => a.2 ≤ b.2)
      (distanceRows demoStoreV none 2
        (fun op => demoDist (op.embedding.getD []) [1, 0]))
    ∧ (distanceRows demoStoreV none 2
        (fun op => demoDist (op.embedding.getD []) [1, 0])).length ≤ 2
    ∧ (∀ op ∈ vector_search_opinions demoStoreV [1, 0] none 2 demoDist,
        op.embedding.isSome = true ∧ vectorWhere none op = true)
    ∧ (vector_search_opinions demoStoreV [1, 0] none 2 demoDist).map
        (fun op => op.id) =
      (distanceRows demoStoreV none 2
        (fun op => demoDist (op.embedding.getD []) [1, 0])).map (fun r => r.1) :=
  C5_vector_search_ranked demoStoreV [1, 0] none 2 demoDist (by decide)

/- ----------------------------------------------------------------------
   JudgeCaseAnalyticsEngine: JudgeAnalyticsService
   (api/ai_services.py lines 246-488) and
   JudgeViewSet.predict_outcome (api/views.py lines 829-920)
   ---------------------------------------------------------------------- -/

/-- One `JudgeDocketRelation` row as consumed by the analytics engine:
    its free-text outcome label and the related docket's nature of suit. -/
structure DocketRel where
  outcome : String
  nature_of_suit : String
deriving DecidableEq, Repr

/-- `get_judge_list` grant rate (api/ai_services.py lines 276-278):
    `total` counts relations with a non-empty outcome, `granted` counts all
    relations whose outcome icontains "grant", the ratio is rounded to one
    decimal, and the fixed fallback 70.0 is used when `total` is zero. -/
def judge_list_grant_rate (rels : List DocketRel) : ℚ :=
  let total := (rels.filter (fun r => !(r.outcome == ""))).length
  let granted := (rels.filter (fun r => icontains r.outcome "grant")).length
  if total > 0 then round1 ((granted : ℚ) / (total : ℚ) * 100) else 70

/-- `get_judge_profile` grant rate (api/ai_services.py lines 329-332): same
    ratio with `granted` restricted to the non-empty-outcome relations, and
    the fixed fallback 78.0 when the denominator is zero. -/
def judge_profile_grant_rate (rels : List DocketRel) : ℚ :=
  let withOutcome := rels.filter (fun r => !(r.outcome == ""))
  let granted := (withOutcome.filter (fun r => icontains r.outcome "grant")).length
  if withOutcome.length > 0 then
    round1 ((granted : ℚ) / (withOutcome.length : ℚ) * 100)
  else 78

theorem icontains_grant_ne_empty (s : String) (h : icontains s "grant" = true) :
    (s == "") = false := by
  by_cases hs : s = ""
  · rw [hs] at h
    exact absurd h (by decide)
  · simp [hs]

/-- Counting "grant" outcomes over all relations and over only the
    non-empty-outcome relations agree: an outcome containing "grant" is
    never the empty string. -/
theorem grant_count_eq (rels : List DocketRel) :
    ((rels.filter (fun r => !(r.outcome == ""))).filter
        (fun r => icontains r.outcome "grant")).length =
      (rels.filter (fun r => icontains r.outcome "grant")).length := by
  rw [List.filter_filter]
  congr 1
  apply List.filter_congr
  intro r _
  by_cases hg : icontains r.outcome "grant" = true
  · rw [hg, icontains_grant_ne_empty _ hg]
    rfl
  · rw [Bool.not_eq_true] at hg
    rw [hg, Bool.false_and]

/-- Concrete docket relations for the C4 scenario: 8 relations with a
    non-empty outcome, 5 of them containing "grant", plus one empty-outcome
    relation. -/
def demoRels : List DocketRel :=
  [⟨"Motion granted", "Contract"⟩, ⟨"Granted in full", "Contract"⟩,
   ⟨"granted", "Tort"⟩, ⟨"GRANTED", "Tort"⟩, ⟨"Request granted", "Labor"⟩,
   ⟨"Denied", "Contract"⟩, ⟨"denied", "Tort"⟩, ⟨"Dismissed", "Labor"⟩,
   ⟨"", "Contract"⟩]

/-- Concrete counts for the scenario relations: 8 non-empty outcomes, 5
    containing "grant". -/
theorem demoRels_counts :
    (demoRels.filter (fun r => !(r.outcome == ""))).length = 8
    ∧ (demoRels.filter (fun r => icontains r.outcome "grant")).length = 5 := by
  constructor <;> decide

theorem demo_list_rate : judge_list_grant_rate demoRels = 62.5 := by
  simp only [judge_list_grant_rate, demoRels_counts.1, demoRels_counts.2]
  rw [if_pos (by decide : (0:ℕ) < 8)]
  rw [round1_eq_self _ 625 (by norm_num)]
  norm_num

theorem demo_profile_rate : judge_profile_grant_rate demoRels = 62.5 := by
  have h5 : ((demoRels.filter (fun r => !(r.outcome == ""))).filter
      (fun r => icontains r.outcome "grant")).length = 5 := by
    rw [grant_count_eq]
    exact demoRels_counts.2
  simp only [judge_profile_grant_rate, demoRels_counts.1, h5]
  rw [if_pos (by decide : (0:ℕ) < 8)]
  rw [round1_eq_self _ 625 (by norm_num)]
  norm_num

/-- C4: whenever a judge has at least one docket relation with a non-empty
    outcome, both grant-rate call sites report
    `round1(100 * count(outcome contains "grant") / count(non-empty outcome))`;
    the 8-relations/5-grants scenario yields 62.5 at both sites; and the
    zero-denominator fallbacks are 70.0 in the judge list and 78.0 in the
    judge profile. -/
theorem C4_grant_rate_formula (rels : List DocketRel)
    (h : 0 < (rels.filter (fun r => !(r.outcome == ""))).length) :
    judge_list_grant_rate rels =
      round1 (100 * (((rels.filter (fun r => icontains r.outcome "grant")).length : ℚ) /
        ((rels.filter (fun r => !(r.outcome == ""))).length : ℚ)))
    ∧ judge_profile_grant_rate rels =
      round1 (100 * (((rels.filter (fun r => icontains r.outcome "grant")).length : ℚ) /
        ((rels.filter (fun r => !(r.outcome == ""))).length : ℚ)))
    ∧ judge_list_grant_rate demoRels = 62.5
    ∧ judge_profile_grant_rate demoRels = 62.5
    ∧ judge_list_grant_rate [] = 70
    ∧ judge_profile_grant_rate [] = 78 := by
  refine ⟨?_, ?_, demo_list_rate, demo_profile_rate, by rfl, by rfl⟩
  · simp only [judge_list_grant_rate]
    rw [if_pos h]
    congr 1
    ring
  · simp only [judge_profile_grant_rate]
    rw [if_pos h, grant_count_eq]
    congr 1
    ring

theorem C4_grant_rate_formula_witness :
    0 < (demoRels.filter (fun r => !(r.outcome == ""))).length
    ∧ (judge_list_grant_rate demoRels =
        round1 (100 * (((demoRels.filter (fun r => icontains r.outcome "grant")).length : ℚ) /
          ((demoRels.filter (fun r => !(r.outcome == ""))).length : ℚ)))
      ∧ judge_profile_grant_rate demoRels =
        round1 (100 * (((demoRels.filter (fun r => icontains r.outcome "grant")).length : ℚ) /
          ((demoRels.filter (fun r => !(r.outcome == ""))).length : ℚ)))
      ∧ judge_list_grant_rate demoRels = 62.5
      ∧ judge_profile_grant_rate demoRels = 62.5
      ∧ judge_list_grant_rate [] = 70
      ∧ judge_profile_grant_rate [] = 78) :=
  ⟨by decide, C4_grant_rate_formula demoRels (by decide)⟩

theorem pyInt_intCast (n : ℤ) : pyInt (n : ℚ) = n := by
  rw [pyInt]
  by_cases h : (n : ℚ) < 0
  · rw [if_pos h, show -(n : ℚ) = ((-n : ℤ) : ℚ) by push_cast; ring, ratFloor_intCast]
    ring
  · rw [if_neg h, ratFloor_intCast]

/-- The historical grant rate computed inside
    `JudgeAnalyticsService.predict_outcome` (api/ai_services.py lines
    439-450): relations whose docket nature-of-suit icontains the requested
    case type, restricted to non-empty outcomes; the ratio of "grant"
    outcomes times 100, or the fixed baseline 78.0 with no history. -/
def service_historical_rate (rels : List DocketRel) (caseType : String) : ℚ :=
  let cat := rels.filter (fun r => icontains r.nature_of_suit caseType)
  let withOutcome := cat.filter (fun r => !(r.outcome == ""))
  if withOutcome.length > 0 then
    ((withOutcome.filter (fun r => icontains r.outcome "grant")).length : ℚ) /
      (withOutcome.length : ℚ) * 100
  else 78

/-- `JudgeAnalyticsService.predict_outcome`'s reported `success_probability`
    (api/ai_services.py line 458): `int(historical_rate)`, with no clamping. -/
def service_predict_success_probability (rels : List DocketRel)
    (caseType : String) : ℤ :=
  pyInt (service_historical_rate rels caseType)

/-- C2 counterexample: a judge whose single relation for the requested case
    type has outcome "Granted" has a 100% historical grant rate, and the
    service-level `predict_outcome` reports success_probability = 100 — not
    clamped to [5, 95]. -/
theorem C2_counterexample :
    service_predict_success_probability
        [⟨"Granted", "Contract dispute"⟩] "contract" = 100
    ∧ ¬(service_predict_success_probability
        [⟨"Granted", "Contract dispute"⟩] "contract" ≤ 95) := by
  have hr : service_historical_rate [⟨"Granted", "Contract dispute"⟩] "contract" = 100 := by
    simp +decide [service_historical_rate]
  constructor
  · rw [service_predict_success_probability, hr,
      show (100 : ℚ) = ((100 : ℤ) : ℚ) by norm_num, pyInt_intCast]
  · rw [service_predict_success_probability, hr,
      show (100 : ℚ) = ((100 : ℤ) : ℚ) by norm_num, pyInt_intCast]
    decide

/-- The base grant rate of the view-level `predict_outcome`
    (api/views.py lines 839-847): grant share of the judge's `CaseOutcome`
    rows for the requested case type, or 50.0 with no history. -/
def view_base_grant_rate (outcomes : List String) : ℚ :=
  if outcomes.length > 0 then
    ((outcomes.filter (fun o => icontains o "grant")).length : ℚ) /
      (outcomes.length : ℚ) * 100
  else 50

/-- Keyword lists of the view-level fact analysis (api/views.py lines 867-868). -/
def favorableKeywords : List String := ["contract", "evidence", "precedent", "clear"]

def unfavorableKeywords : List String := ["disputed", "unclear", "complex", "novel"]

/-- Python str.join with a single-space separator. -/
def joinSpace : List String → String
  | [] => ""
  | [s] => s
  | s :: rest => s ++ " " ++ joinSpace rest

/-- The `prediction_adjustment` of the view-level `predict_outcome`
    (api/views.py lines 857-876): +5 for a plaintiff with base rate > 60 or a
    defendant with base rate < 40, then +2 per favorable and -2 per
    unfavorable keyword found in the lower-cased joined fact text. -/
def view_prediction_adjustment (clientPosition : String) (baseRate : ℚ)
    (keyFacts : List String) : ℚ :=
  let posAdj : ℚ :=
    if toLowerStr clientPosition == "plaintiff" && decide (baseRate > 60) then 5
    else if toLowerStr clientPosition == "defendant" && decide (baseRate < 40) then 5
    else 0
  let factText := toLowerStr (joinSpace keyFacts)
  posAdj + 2 * ((favorableKeywords.filter (fun k => strContains factText k)).length : ℚ)
    - 2 * ((unfavorableKeywords.filter (fun k => strContains factText k)).length : ℚ)

/-- The final prediction of the view-level `predict_outcome`
    (api/views.py line 879):
    `predicted_success_rate = min(95, max(5, base_grant_rate + prediction_adjustment))`. -/
def view_predicted_success_rate (outcomes : List String) (clientPosition : String)
    (keyFacts : List String) : ℚ :=
  let base := view_base_grant_rate outcomes
  min 95 (max 5 (base + view_prediction_adjustment clientPosition base keyFacts))

/-- C2 amended: the view-level `predict_outcome` success probability is
    clamped to [5, 95] for every judge history and every case input (in
    particular a 100% historical grant rate cannot produce 100); the
    service-level `JudgeAnalyticsService.predict_outcome`, however, returns
    the truncated historical rate with no clamp. -/
theorem C2_view_predict_outcome_clamped (outcomes : List String)
    (clientPosition : String) (keyFacts : List String) :
    5 ≤ view_predicted_success_rate outcomes clientPosition keyFacts
    ∧ view_predicted_success_rate outcomes clientPosition keyFacts ≤ 95 := by
  constructor
  · simp only [view_predicted_success_rate]
    exact le_min (by norm_num) (le_max_left _ _)
  · simp only [view_predicted_success_rate]
    exact min_le_left _ _

/- ----------------------------------------------------------------------
   CaseAnalysisService.get_case_type_statistics
   (api/ai_services.py lines 535-582)
   ---------------------------------------------------------------------- -/

/-- A `Docket` row as queried by `get_case_type_statistics`. -/
structure DocketRow where
  docket_id : ℤ
  nature_of_suit : String
  case_name : String
deriving DecidableEq, Repr

/-- A `JudgeDocketRelation` row as queried by `get_case_type_statistics`. -/
structure RelationRow where
  rel_docket_id : ℤ
  outcome : String
deriving DecidableEq, Repr

/-- The fixed UI categories with their case-name keywords
    (api/ai_services.py lines 540-545). -/
def uiCategories : List (String × List String) :=
  [("Civil Rights", ["civil rights", "discrimination", "voting"]),
   ("Contract Disputes", ["contract", "breach", "agreement"]),
   ("Employment", ["employment", "labor", "wage"]),
   ("Personal Injury", ["injury", "tort", "accident"])]

/-- The docket query of one category: nature-of-suit icontains the category
    name, OR-ed with case-name icontains for each keyword. -/
def categoryQuery (name : String) (kws : List String) (d : DocketRow) : Bool :=
  icontains d.nature_of_suit name || kws.any (fun kw => icontains d.case_name kw)

/-- The fixed illustrative record substituted when a category has zero
    matching dockets (api/ai_services.py lines 560-564; the branch tests are
    Python's case-sensitive `in` on the category name). -/
def fallbackStat (name : String) : Nat × ℤ :=
  if strContains name "Civil" then (234, 76)
  else if strContains name "Contract" then (189, 82)
  else if strContains name "Employment" then (156, 69)
  else (145, 91)

/-- One record of the `case_type_statistics` response. -/
structure CaseTypeStat where
  category : String
  total_cases : Nat
  granted_percentage : ℤ
  denied_percentage : ℤ
deriving DecidableEq, Repr

/-- The per-category record built by `get_case_type_statistics`: the real
    docket count when positive (with the grant percentage over the matching
    relations, or the fallback 75 with no outcomes), otherwise the fixed
    illustrative tuple. -/
def category_stat (dockets : List DocketRow) (rels : List RelationRow)
    (name : String) (kws : List String) : CaseTypeStat :=
  let matched := dockets.filter (categoryQuery name kws)
  let total := matched.length
  if total == 0 then
    let fb := fallbackStat name
    { category := name
      total_cases := fb.1
      granted_percentage := fb.2
      denied_percentage := 100 - fb.2 }
  else
    let catRels := rels.filter (fun r => matched.any (fun d => d.docket_id == r.rel_docket_id))
    let withOutcome := (catRels.filter (fun r => !(r.outcome == ""))).length
    let gp : ℤ :=
      if withOutcome > 0 then
        pyInt (((catRels.filter (fun r => icontains r.outcome "grant")).length : ℚ) /
          (withOutcome : ℚ) * 100)
      else 75
    { category := name
      total_cases := total
      granted_percentage := gp
      denied_percentage := 100 - gp }

/-- `get_case_type_statistics`: one record per fixed UI category. -/
def get_case_type_statistics (dockets : List DocketRow)
    (rels : List RelationRow) : List CaseTypeStat :=
  uiCategories.map (fun c => category_stat dockets rels c.1 c.2)

/-- C7: whenever a category's real matching-docket count is zero, the record
    returned for it is the fixed illustrative tuple documented for that
    category (Civil Rights: 234 cases / 76% granted, Contract Disputes:
    189 / 82, Employment: 156 / 69, Personal Injury: 145 / 91) rather than a
    zero-case record; and the full response is exactly the per-category
    records in the fixed category order. -/
theorem C7_zero_count_fallback (dockets : List DocketRow) (rels : List RelationRow) :
    ((dockets.filter (categoryQuery "Civil Rights"
        ["civil rights", "discrimination", "voting"])).length = 0 →
      category_stat dockets rels "Civil Rights"
        ["civil rights", "discrimination", "voting"] = ⟨"Civil Rights", 234, 76, 24⟩)
    ∧ ((dockets.filter (categoryQuery "Contract Disputes"
        ["contract", "breach", "agreement"])).length = 0 →
      category_stat dockets rels "Contract Disputes"
        ["contract", "breach", "agreement"] = ⟨"Contract Disputes", 189, 82, 18⟩)
    ∧ ((dockets.filter (categoryQuery "Employment"
        ["employment", "labor", "wage"])).length = 0 →
      category_stat dockets rels "Employment"
        ["employment", "labor", "wage"] = ⟨"Employment", 156, 69, 31⟩)
    ∧ ((dockets.filter (categoryQuery "Personal Injury"
        ["injury", "tort", "accident"])).length = 0 →
      category_stat dockets rels "Personal Injury"
        ["injury", "tort", "accident"] = ⟨"Personal Injury", 145, 91, 9⟩)
    ∧ get_case_type_statistics dockets rels =
      [category_stat dockets rels "Civil Rights" ["civil rights", "discrimination", "voting"],
       category_stat dockets rels "Contract Disputes" ["contract", "breach", "agreement"],
       category_stat dockets rels "Employment" ["employment", "labor", "wage"],
       category_stat dockets rels "Personal Injury" ["injury", "tort", "accident"]] := by
  refine ⟨?_, ?_, ?_, ?_, rfl⟩ <;>
    · intro h
      simp only [category_stat, h]
      rfl

theorem C7_zero_count_fallback_witness :
    (([] : List DocketRow).filter (categoryQuery "Civil Rights"
        ["civil rights", "discrimination", "voting"])).length = 0
    ∧ category_stat [] [] "Civil Rights"
        ["civil rights", "discrimination", "voting"] = ⟨"Civil Rights", 234, 76, 24⟩
    ∧ category_stat [] [] "Contract Disputes"
        ["contract", "breach", "agreement"] = ⟨"Contract Disputes", 189, 82, 18⟩
    ∧ category_stat [] [] "Employment"
        ["employment", "labor", "wage"] = ⟨"Employment", 156, 69, 31⟩
    ∧ category_stat [] [] "Personal Injury"
        ["injury", "tort", "accident"] = ⟨"Personal Injury", 145, 91, 9⟩ :=
  ⟨rfl, (C7_zero_count_fallback [] []).1 rfl,
    (C7_zero_count_fallback [] []).2.1 rfl,
    (C7_zero_count_fallback [] []).2.2.1 rfl,
    (C7_zero_count_fallback [] []).2.2.2.1 rfl⟩

/- ----------------------------------------------------------------------
   Ingestion: DataProcessor.process_citation and
   DataProcessor.process_judge_docket_relation
   (data_ingestion/data_processors.py lines 493-533), over the
   OpinionsCited table with unique_together [citing_opinion, cited_opinion]
   and the JudgeDocketRelation table (court_data/models.py)
   ---------------------------------------------------------------------- -/

/-- A stored `OpinionsCited` row (citing, cited, depth). -/
structure CitationEdge where
  citing : ℤ
  cited : ℤ
  depth : ℤ
deriving DecidableEq, Repr

/-- The get_or_create lookup key on the ordered pair. -/
def edgePred (a b : ℤ) (e : CitationEdge) : Bool :=
  e.citing == a && e.cited == b

/-- `OpinionsCited.objects.get_or_create(citing_opinion=…, cited_opinion=…)`
    lookup over the list-backed table. -/
def findEdge (edges : List CitationEdge) (a b : ℤ) : Option CitationEdge :=
  edges.find? (edgePred a b)

/-- `DataProcessor.process_citation`: both opinions must exist (otherwise
    None is returned and the table is untouched); then get_or_create on the
    ordered pair, with the `depth` default applied only on creation. -/
def process_citation (opinions : List ℤ) (edges : List CitationEdge)
    (a b depth : ℤ) : List CitationEdge × Option CitationEdge :=
  if a ∈ opinions ∧ b ∈ opinions then
    match findEdge edges a b with
    | some e => (edges, some e)
    | none => (edges ++ [⟨a, b, depth⟩], some ⟨a, b, depth⟩)
  else (edges, none)

/-- Number of stored rows for the ordered pair `(a, b)`. -/
def edgeCount (edges : List CitationEdge) (a b : ℤ) : Nat :=
  (edges.filter (edgePred a b)).length

/-- C6 counterexample: nothing guards against a reflexive pair — processing
    the citation (1, 1) over a store containing opinion 1 stores the
    self-citation edge (1, 1). -/
theorem C6_counterexample_self_citation :
    (process_citation [1] [] 1 1 1).1 = [⟨1, 1, 1⟩]
    ∧ edgeCount (process_citation [1] [] 1 1 1).1 1 1 = 1 := by
  constructor <;> rfl

/-- C6 amended: citation-edge ingestion is an upsert on the ordered pair —
    starting from a store holding at most one row for (a, b), one processing
    call leaves exactly one row for (a, b), a second call (with any depth)
    returns the store unchanged, and the reverse pair (b, a) count is
    untouched whenever a ≠ b; however, there is no self-citation guard, so a
    reflexive pair (a, a) is stored like any other when processed. -/
theorem C6_citation_edge_upsert (opinions : List ℤ) (edges : List CitationEdge)
    (a b d d' : ℤ) (ha : a ∈ opinions) (hb : b ∈ opinions)
    (hcount : edgeCount edges a b ≤ 1) :
    edgeCount (process_citation opinions edges a b d).1 a b = 1
    ∧ (process_citation opinions (process_citation opinions edges a b d).1 a b d').1 =
        (process_citation opinions edges a b d).1
    ∧ (a ≠ b → edgeCount (process_citation opinions edges a b d).1 b a =
        edgeCount edges b a) := by
  cases hfind : findEdge edges a b with
  | some e =>
    have hps : process_citation opinions edges a b d = (edges, some e) := by
      simp only [process_citation, hfind, if_pos (And.intro ha hb)]
    rw [hps]
    refine ⟨?_, ?_, fun _ => rfl⟩
    · have hmem : e ∈ edges := List.mem_of_find?_eq_some hfind
      have hpe : edgePred a b e = true := List.find?_some hfind
      have hin : e ∈ edges.filter (edgePred a b) := List.mem_filter.mpr ⟨hmem, hpe⟩
      have h0 : 0 < (edges.filter (edgePred a b)).length :=
        List.length_pos.mpr (List.ne_nil_of_mem hin)
      show edgeCount edges a b = 1
      rw [edgeCount] at hcount ⊢
      omega
    · simp only [process_citation, hfind, if_pos (And.intro ha hb)]
  | none =>
    have hps : process_citation opinions edges a b d =
        (edges ++ [⟨a, b, d⟩], some ⟨a, b, d⟩) := by
      simp only [process_citation, hfind, if_pos (And.intro ha hb)]
    rw [hps]
    have hnil : edges.filter (edgePred a b) = [] := by
      rw [List.filter_eq_nil_iff]
      intro e he
      have := List.find?_eq_none.mp hfind e he
      simp [this]
    refine ⟨?_, ?_, ?_⟩
    · rw [edgeCount, List.filter_append, hnil]
      simp [edgePred]
    · have hfind2 : findEdge (edges ++ [⟨a, b, d⟩]) a b = some ⟨a, b, d⟩ := by
        rw [findEdge, List.find?_append]
        rw [findEdge] at hfind
        rw [hfind, Option.none_or]
        simp [List.find?, edgePred]
      simp only [process_citation, hfind2, if_pos (And.intro ha hb)]
    · intro hab
      rw [edgeCount, edgeCount, List.filter_append]
      have hsingle : List.filter (edgePred b a) [⟨a, b, d⟩] = [] := by
        simp [edgePred, hab]
      rw [hsingle, List.append_nil]

theorem C6_citation_edge_upsert_witness :
    edgeCount (process_citation [1, 2] [] 1 2 3).1 1 2 = 1
    ∧ (process_citation [1, 2] (process_citation [1, 2] [] 1 2 3).1 1 2 9).1 =
        (process_citation [1, 2] [] 1 2 3).1
    ∧ ((1 : ℤ) ≠ 2 → edgeCount (process_citation [1, 2] [] 1 2 3).1 2 1 =
        edgeCount [] 2 1) :=
  C6_citation_edge_upsert [1, 2] [] 1 2 3 9 (by decide) (by decide) (by decide)

/-- A stored `JudgeDocketRelation` row; the unique key is the
    (judge, docket, role) triple, `outcome` is a default applied only on
    creation. -/
structure JudgeDocketRel where
  judge : ℤ
  docket : ℤ
  role : String
  outcome : String
deriving DecidableEq, Repr

/-- The get_or_create lookup key on the (judge, docket, role) triple. -/
def relPred (j d : ℤ) (role : String) (r : JudgeDocketRel) : Bool :=
  r.judge == j && r.docket == d && r.role == role

/-- `JudgeDocketRelation.objects.get_or_create(judge=…, docket=…, role=…)`
    lookup over the list-backed table. -/
def findRelation (rels : List JudgeDocketRel) (j d : ℤ) (role : String) :
    Option JudgeDocketRel :=
  rels.find? (relPred j d role)

/-- `DataProcessor.process_judge_docket_relation`: get_or_create on the
    (judge, docket, role) triple with the `outcome` default applied only on
    creation. -/
def process_judge_docket_relation (rels : List JudgeDocketRel) (j d : ℤ)
    (role outcome : String) : List JudgeDocketRel × JudgeDocketRel :=
  match findRelation rels j d role with
  | some r => (rels, r)
  | none => (rels ++ [⟨j, d, role, outcome⟩], ⟨j, d, role, outcome⟩)

/-- C10: re-processing an already-stored citation edge with a different depth
    leaves the store unchanged, and re-processing an already-stored
    judge-docket relation with a different outcome leaves the store unchanged
    and returns the existing row (defaults apply only on creation). -/
theorem C10_reprocess_is_noop (opinions : List ℤ) (edges : List CitationEdge)
    (a b d' : ℤ) (e : CitationEdge) (he : findEdge edges a b = some e)
    (rels : List JudgeDocketRel) (j dk : ℤ) (role outcome' : String)
    (r : JudgeDocketRel) (hr : findRelation rels j dk role = some r) :
    (process_citation opinions edges a b d').1 = edges
    ∧ (process_judge_docket_relation rels j dk role outcome').1 = rels
    ∧ (process_judge_docket_relation rels j dk role outcome').2 = r := by
  refine ⟨?_, ?_, ?_⟩
  · by_cases hg : a ∈ opinions ∧ b ∈ opinions
    · simp only [process_citation, he, if_pos hg]
    · simp only [process_citation, if_neg hg]
  · simp only [process_judge_docket_relation, hr]
  · simp only [process_judge_docket_relation, hr]

/-- Concrete stored tables for the C10 witness. -/
def demoEdges : List CitationEdge := [⟨1, 2, 1⟩]

def demoJDRels : List JudgeDocketRel := [⟨7, 8, "author", "granted"⟩]

theorem C10_reprocess_is_noop_witness :
    (process_citation [1, 2] demoEdges 1 2 9).1 = demoEdges
    ∧ (process_judge_docket_relation demoJDRels 7 8 "author" "denied").1 = demoJDRels
    ∧ (process_judge_docket_relation demoJDRels 7 8 "author" "denied").2 =
        ⟨7, 8, "author", "granted"⟩ :=
  C10_reprocess_is_noop [1, 2] demoEdges 1 2 9 ⟨1, 2, 1⟩ (by decide)
    demoJDRels 7 8 "author" "denied" ⟨7, 8, "author", "granted"⟩ (by decide)
